import Mathlib

/-!
# CCP servo driver (`CCPServo.X/main.c`)

A shallow embedding of the interrupt handler `isr`, the initialisation
routines and the setter `set_servo_pulse_time` of the PIC16F18325 servo
example, together with the properties of the pulse train they generate.

Registers and globals are fields of one record.  The 16-bit quantities
(`CCPR1`, `TMR1`, `servo_pulse_time`, `new_pulse_time`) are natural numbers and
every arithmetic operation of the source is reduced modulo `2^16` explicitly.
-/

namespace CCPServo

/-- The constant `SERVO_PERIOD` (line 63): 20 ms in 1 MHz timer ticks. -/
def SERVO_PERIOD : Nat := 20000

/-- Unsigned 16-bit addition, as performed by `CCPR1 += x`. -/
def add16 (a b : Nat) : Nat := (a + b) % 65536

/-- Unsigned 16-bit subtraction, as performed by `SERVO_PERIOD - servo_pulse_time`
on `uint16_t` operands: the mathematical difference reduced modulo `2^16`. -/
def sub16 (a b : Nat) : Nat := (((a : Int) - (b : Int)) % 65536).toNat

/-- The special function registers and the two globals the program touches. -/
structure State where
  /-- Field `INTCONbits.GIE`. -/
  GIE : Bool
  /-- Field `INTCONbits.PEIE`. -/
  PEIE : Bool
  /-- Field `PIE4bits.CCP1IE`. -/
  CCP1IE : Bool
  /-- Field `PIR4bits.CCP1IF`. -/
  CCP1IF : Bool
  /-- Field `CCP1CONbits.CCP1MODE` (4 bits). -/
  CCP1MODE : Nat
  /-- Field `CCP1CONbits.CCP1EN`. -/
  CCP1EN : Bool
  /-- Register `CCPR1` (16 bits): the compare value. -/
  CCPR1 : Nat
  /-- Register `TMR1` (16 bits): the free-running counter. -/
  TMR1 : Nat
  /-- Field `T1CONbits.TMR1CS`. -/
  TMR1CS : Nat
  /-- Field `T1CONbits.T1CKPS`. -/
  T1CKPS : Nat
  /-- Field `T1CONbits.TMR1ON`. -/
  TMR1ON : Bool
  /-- Field `CCPTMRSbits.C1TSEL`. -/
  C1TSEL : Nat
  /-- Register `ANSELA`. -/
  ANSELA : Nat
  /-- Register `ANSELC`. -/
  ANSELC : Nat
  /-- Register `TRISA`. -/
  TRISA : Nat
  /-- Register `TRISC`. -/
  TRISC : Nat
  /-- Field `PPSLOCKbits.PPSLOCKED`. -/
  PPSLOCKED : Bool
  /-- Register `RC5PPS`. -/
  RC5PPS : Nat
  /-- Global `servo_pulse_time` (line 65): the width in use. -/
  servo_pulse_time : Nat
  /-- Global `new_pulse_time` (line 66): the pending width. -/
  new_pulse_time : Nat
  deriving DecidableEq, Repr

/-- The static initialisers of lines 65-66, run before `main`. -/
def c_init (s : State) : State :=
  { s with servo_pulse_time := 1500, new_pulse_time := 1500 }

/-- The interrupt handler `isr` (lines 68-83). -/
def isr (s : State) : State :=
  if s.PEIE then
    if s.CCP1IE && s.CCP1IF then
      let s := { s with CCP1IF := false }
      if s.CCP1MODE = 0b1000 then
        let s := { s with CCPR1 := add16 s.CCPR1 s.servo_pulse_time }
        { s with CCP1MODE := 0b1001 }
      else
        let s := { s with CCPR1 := add16 s.CCPR1 (sub16 SERVO_PERIOD s.servo_pulse_time) }
        let s := { s with CCP1MODE := 0b1000 }
        { s with servo_pulse_time := s.new_pulse_time }
    else s
  else s

/-- Routine `init_ports` (lines 85-93). -/
def init_ports (s : State) : State :=
  { s with ANSELA := 0x00, ANSELC := 0x00, TRISA := 0x00, TRISC := 0x00 }

/-- Routine `init_pps` (lines 95-117).  The key writes `0x55`, `0xAA` to
`PPSLOCK` leave no stored value; the lock bit, the pin routing and the saved
and restored `GIE` are kept. -/
def init_pps (s : State) : State :=
  let state := s.GIE
  let s := { s with GIE := false }
  let s := { s with PPSLOCKED := false }
  let s := { s with RC5PPS := 0b01100 }
  let s := { s with PPSLOCKED := true }
  { s with GIE := state }

/-- Routine `init_timers` (lines 119-122). -/
def init_timers (s : State) : State :=
  { s with TMR1CS := 0b00, T1CKPS := 0b11 }

/-- Routine `init_ccp` (lines 124-132). -/
def init_ccp (s : State) : State :=
  let s := { s with CCP1MODE := 0b1000 }
  let s := { s with C1TSEL := 0b01 }
  let s := { s with TMR1 := 0 }
  let s := { s with CCPR1 := 10000 }
  let s := { s with TMR1ON := true }
  { s with CCP1EN := true }

/-- Routine `init_interrupts` (lines 134-138). -/
def init_interrupts (s : State) : State :=
  let s := { s with CCP1IE := true }
  { s with PEIE := true }

/-- Routine `init_system` (lines 140-146). -/
def init_system (s : State) : State :=
  init_interrupts (init_ccp (init_timers (init_pps (init_ports s))))

/-- The setter `set_servo_pulse_time` (lines 148-157).  The parameter is a
`uint16_t`, so the argument is reduced to 16 bits on entry. -/
def set_servo_pulse_time (s : State) (time : Nat) : State :=
  let status := s.CCP1IE
  let s := { s with CCP1IE := false }
  let s := { s with new_pulse_time := time % 65536 }
  { s with CCP1IE := status }

/-- An invocation of `isr` is acting when the three guards of lines 69-70 hold. -/
def acting (s : State) : Bool := s.PEIE && s.CCP1IE && s.CCP1IF

/-- Environment: Timer1 reaches the compare value and the CCP module raises
its interrupt flag. -/
def compare_match (s : State) : State :=
  { s with TMR1 := s.CCPR1, CCP1IF := true }

/-- What can happen to the state: the handler runs, the main context calls the
setter, or the hardware moves the counter and possibly raises the flag. -/
inductive Event where
  | isr : Event
  | set : Nat → Event
  | hw : Nat → Bool → Event
  deriving DecidableEq, Repr

/-- One event applied to a state. -/
def step (s : State) : Event → State
  | Event.isr => isr s
  | Event.set w => set_servo_pulse_time s w
  | Event.hw t f => { s with TMR1 := t % 65536, CCP1IF := s.CCP1IF || f }

/-- A sequence of events applied in order. -/
def run (s : State) : List Event → State
  | [] => s
  | e :: es => run (step s e) es

/-- Number of acting handler invocations along a sequence of events. -/
def actingCount (s : State) : List Event → Nat
  | [] => 0
  | e :: es =>
    (if e = Event.isr ∧ acting s = true then 1 else 0) + actingCount (step s e) es

/-- The arguments of the setter calls of a sequence of events, in order. -/
def setArgs : List Event → List Nat
  | [] => []
  | Event.set w :: es => w :: setArgs es
  | _ :: es => setArgs es

/-- A power-on register file with everything cleared. -/
def zeroState : State :=
  { GIE := false, PEIE := false, CCP1IE := false, CCP1IF := false, CCP1MODE := 0,
    CCP1EN := false, CCPR1 := 0, TMR1 := 0, TMR1CS := 0, T1CKPS := 0, TMR1ON := false,
    C1TSEL := 0, ANSELA := 0, ANSELC := 0, TRISA := 0, TRISC := 0, PPSLOCKED := false,
    RC5PPS := 0, servo_pulse_time := 0, new_pulse_time := 0 }

/-- The state in which `main` enters its loop, from the cleared register file. -/
def startState : State := init_system (c_init zeroState)

/-- Number of latching handler invocations (acting, mode not Set On Match)
along a sequence of events. -/
def latchCount (s : State) : List Event → Nat
  | [] => 0
  | e :: es =>
    (if e = Event.isr ∧ acting s = true ∧ s.CCP1MODE ≠ 0b1000 then 1 else 0)
      + latchCount (step s e) es

/-- The compare value at which the period in progress began: `CCPR1` itself
while the rising edge is awaited, `CCPR1` less the width in use afterwards. -/
def periodBase (s : State) : Nat :=
  if s.CCP1MODE = 0b1000 then s.CCPR1 % 65536 else sub16 s.CCPR1 s.servo_pulse_time

/-- Start-up, one full period, then a setter call in the low phase of that
period (after the latch) and the compare match that starts the next period. -/
def lowPhaseCallTrace : List Event :=
  [Event.hw 10000 true, Event.isr, Event.hw 11500 true, Event.isr,
   Event.set 2000, Event.hw 30000 true]

/-- Start-up, the rising-edge step, then a setter call in the high phase and
the compare match that ends the high pulse. -/
def highPhaseCallTrace : List Event :=
  [Event.hw 10000 true, Event.isr, Event.set 2000, Event.hw 11500 true]

/-- Start-up, a setter call with argument zero, and one full period. -/
def zeroWidthTrace : List Event :=
  [Event.set 0, Event.hw 10000 true, Event.isr, Event.hw 11500 true, Event.isr]

/-- The amount an acting handler step adds to `CCPR1`: the operand of `+=` on
line 74 (Set On Match) or on line 77 (otherwise). -/
def isr_increment (mode width : Nat) : Nat :=
  if mode = 0b1000 then width else sub16 SERVO_PERIOD width

/-- Start-up, a setter call with argument zero, one full period (which latches
the zero width), and the compare match that starts the next period. -/
def stalledHighTrace : List Event :=
  [Event.set 0, Event.hw 10000 true, Event.isr, Event.hw 11500 true, Event.isr,
   Event.hw 30000 true]

/-- Start-up, a setter call with argument `SERVO_PERIOD`, one full period (which
latches it), the rising-edge step of the next period, and the compare match
that ends its high pulse. -/
def stalledLowTrace : List Event :=
  [Event.set 20000, Event.hw 10000 true, Event.isr, Event.hw 11500 true, Event.isr,
   Event.hw 30000 true, Event.isr, Event.hw 50000 true]

/-- The statements of `set_servo_pulse_time` one at a time; the 16-bit store
of line 154 is two byte stores on this 8-bit core. -/
inductive SetterStep where
  | readStatus : SetterStep
  | disable : SetterStep
  | writeLow : SetterStep
  | writeHigh : SetterStep
  | restore : SetterStep
  deriving DecidableEq, Repr

/-- A call of the setter in progress: its local `status` and the registers. -/
structure SetterCtx where
  /-- Local `status` (line 149). -/
  status : Bool
  /-- The registers and globals. -/
  regs : State
  deriving DecidableEq, Repr

/-- One statement of the setter: line 151, line 152, the low byte and the high
byte of line 154, line 156. -/
def setterStep (time : Nat) (c : SetterCtx) : SetterStep → SetterCtx
  | SetterStep.readStatus => { c with status := c.regs.CCP1IE }
  | SetterStep.disable => { c with regs := { c.regs with CCP1IE := false } }
  | SetterStep.writeLow =>
    { c with regs := { c.regs with
        new_pulse_time := c.regs.new_pulse_time / 256 % 256 * 256 + time % 256 } }
  | SetterStep.writeHigh =>
    { c with regs := { c.regs with
        new_pulse_time := time / 256 % 256 * 256 + c.regs.new_pulse_time % 256 } }
  | SetterStep.restore => { c with regs := { c.regs with CCP1IE := c.status } }

/-- The statements of the setter in program order, with either byte order for
the store. -/
def setterProgram (lowFirst : Bool) : List SetterStep :=
  if lowFirst then
    [SetterStep.readStatus, SetterStep.disable, SetterStep.writeLow, SetterStep.writeHigh,
     SetterStep.restore]
  else
    [SetterStep.readStatus, SetterStep.disable, SetterStep.writeHigh, SetterStep.writeLow,
     SetterStep.restore]

/-- A run of setter statements. -/
def setterRun (time : Nat) (c : SetterCtx) : List SetterStep → SetterCtx
  | [] => c
  | st :: rest => setterRun time (setterStep time c st) rest

/-- The registers at the moment the handler is invoked, after the first `k`
statements of the setter. -/
def beforeInterrupt (time : Nat) (lowFirst : Bool) (k : Nat) (c : SetterCtx) : State :=
  (setterRun time c ((setterProgram lowFirst).take k)).regs

/-- The setter interrupted once: `k` statements, the handler run to completion,
then the remaining statements. -/
def interruptAt (time : Nat) (lowFirst : Bool) (k : Nat) (c : SetterCtx) : SetterCtx :=
  let before := setterRun time c ((setterProgram lowFirst).take k)
  let handled := { before with regs := isr before.regs }
  setterRun time handled ((setterProgram lowFirst).drop k)

/-- The width `main` computes on line 167 from the result `r` of `rand()` and
stores in the `uint16_t servo_time`. -/
def servo_time (r : Nat) : Nat := (r % 2000 + 500) % 65536

/-- Function `main` up to its loop (lines 160-164). -/
def main_setup (s : State) : State :=
  let s := init_system s
  { s with GIE := true }

/-- One iteration of the loop of `main` (lines 167-168) for the result `r` of
`rand()`; the delay of line 170 changes no register. -/
def main_loop_body (s : State) (r : Nat) : State :=
  set_servo_pulse_time s (servo_time r)

/-- What happens while the program runs: the handler, a hardware event, or one
iteration of the loop of `main`. -/
inductive ProgEvent where
  | isr : ProgEvent
  | hw : Nat → Bool → ProgEvent
  | loop : Nat → ProgEvent
  deriving DecidableEq, Repr

/-- One program event applied to a state. -/
def progStep (s : State) : ProgEvent → State
  | ProgEvent.isr => isr s
  | ProgEvent.hw t f => { s with TMR1 := t % 65536, CCP1IF := s.CCP1IF || f }
  | ProgEvent.loop r => main_loop_body s r

/-- A sequence of program events applied in order. -/
def progRun (s : State) : List ProgEvent → State
  | [] => s
  | e :: es => progRun (progStep s e) es

/-! ## The handler, field by field -/

theorem isr_CCPR1 (s : State) :
    (isr s).CCPR1 =
      if acting s = true then
        (if s.CCP1MODE = 0b1000 then add16 s.CCPR1 s.servo_pulse_time
         else add16 s.CCPR1 (sub16 SERVO_PERIOD s.servo_pulse_time))
      else s.CCPR1 := by
  unfold isr acting
  cases s.PEIE <;> cases s.CCP1IE <;> cases s.CCP1IF <;> simp
  split <;> rfl

theorem isr_CCP1MODE (s : State) :
    (isr s).CCP1MODE =
      if acting s = true then (if s.CCP1MODE = 0b1000 then 0b1001 else 0b1000)
      else s.CCP1MODE := by
  unfold isr acting
  cases s.PEIE <;> cases s.CCP1IE <;> cases s.CCP1IF <;> simp
  split <;> rfl

theorem isr_servo_pulse_time (s : State) :
    (isr s).servo_pulse_time =
      if acting s = true ∧ s.CCP1MODE ≠ 0b1000 then s.new_pulse_time
      else s.servo_pulse_time := by
  unfold isr acting
  cases s.PEIE <;> cases s.CCP1IE <;> cases s.CCP1IF <;> simp
  split <;> simp_all

theorem isr_new_pulse_time (s : State) : (isr s).new_pulse_time = s.new_pulse_time := by
  unfold isr
  cases h1 : s.PEIE <;> cases h2 : s.CCP1IE <;> cases h3 : s.CCP1IF <;> simp [h1, h2, h3]
  split <;> simp [h1, h2, h3]

theorem isr_PEIE (s : State) : (isr s).PEIE = s.PEIE := by
  unfold isr
  cases h1 : s.PEIE <;> cases h2 : s.CCP1IE <;> cases h3 : s.CCP1IF <;> simp [h1, h2, h3]
  split <;> simp [h1, h2, h3]

theorem isr_CCP1IE (s : State) : (isr s).CCP1IE = s.CCP1IE := by
  unfold isr
  cases h1 : s.PEIE <;> cases h2 : s.CCP1IE <;> cases h3 : s.CCP1IF <;> simp [h1, h2, h3]
  split <;> simp [h1, h2, h3]

theorem isr_not_acting (s : State) (h : acting s = false) : isr s = s := by
  unfold isr
  unfold acting at h
  cases h1 : s.PEIE <;> cases h2 : s.CCP1IE <;> cases h3 : s.CCP1IF <;> simp_all

/-! ## The setter and the hardware event, field by field -/

theorem set_new_pulse_time (s : State) (w : Nat) :
    (set_servo_pulse_time s w).new_pulse_time = w % 65536 := rfl

theorem set_servo_pulse_time_eq (s : State) (w : Nat) :
    set_servo_pulse_time s w = { s with new_pulse_time := w % 65536 } := rfl

theorem step_isr (s : State) : step s Event.isr = isr s := rfl

theorem step_set (s : State) (w : Nat) :
    step s (Event.set w) = { s with new_pulse_time := w % 65536 } := rfl

theorem step_hw (s : State) (t : Nat) (f : Bool) :
    step s (Event.hw t f) = { s with TMR1 := t % 65536, CCP1IF := s.CCP1IF || f } := rfl

/-! ## Traces -/

theorem run_append (s : State) (xs ys : List Event) :
    run s (xs ++ ys) = run (run s xs) ys := by
  induction xs generalizing s with
  | nil => rfl
  | cons e es ih => exact ih (step s e)

theorem actingCount_append (s : State) (xs ys : List Event) :
    actingCount s (xs ++ ys) = actingCount s xs + actingCount (run s xs) ys := by
  induction xs generalizing s with
  | nil => simp [actingCount, run]
  | cons e es ih =>
    show actingCount s (e :: (es ++ ys)) = _
    simp only [actingCount, run, ih (step s e)]
    omega

/-- Neither the handler, nor the setter, nor the hardware event changes the
two interrupt enables. -/
theorem run_enables (s : State) (evs : List Event) :
    (run s evs).PEIE = s.PEIE ∧ (run s evs).CCP1IE = s.CCP1IE := by
  induction evs generalizing s with
  | nil => exact ⟨rfl, rfl⟩
  | cons e es ih =>
    obtain ⟨h1, h2⟩ := ih (step s e)
    simp only [run, h1, h2]
    cases e with
    | isr => exact ⟨isr_PEIE s, isr_CCP1IE s⟩
    | set w => exact ⟨rfl, rfl⟩
    | hw t f => exact ⟨rfl, rfl⟩

/-- A stretch of events without an acting handler invocation leaves the compare
register, the mode and the width in use as they were. -/
theorem run_quiet (s : State) (evs : List Event) (h : actingCount s evs = 0) :
    (run s evs).CCPR1 = s.CCPR1 ∧ (run s evs).CCP1MODE = s.CCP1MODE ∧
      (run s evs).servo_pulse_time = s.servo_pulse_time := by
  induction evs generalizing s with
  | nil => exact ⟨rfl, rfl, rfl⟩
  | cons e es ih =>
    simp only [actingCount] at h
    have hrest : actingCount (step s e) es = 0 := by omega
    obtain ⟨h1, h2, h3⟩ := ih (step s e) hrest
    simp only [run, h1, h2, h3]
    cases e with
    | isr =>
      have hna : acting s = false := by
        cases ha : acting s
        · rfl
        · simp [ha] at h
      rw [step_isr, isr_not_acting s hna]
      exact ⟨rfl, rfl, rfl⟩
    | set w => exact ⟨rfl, rfl, rfl⟩
    | hw t f => exact ⟨rfl, rfl, rfl⟩

/-- The pending width after a sequence of events is the last setter argument,
or the old pending width when the setter was not called. -/
theorem run_new_pulse_time (s : State) (evs : List Event) :
    (run s evs).new_pulse_time =
      match (setArgs evs).getLast? with
      | some w => w % 65536
      | none => s.new_pulse_time := by
  induction evs generalizing s with
  | nil => rfl
  | cons e es ih =>
    simp only [run]
    rw [ih (step s e)]
    cases e with
    | isr =>
      simp only [setArgs, step_isr, isr_new_pulse_time]
    | set w =>
      simp only [setArgs]
      cases hl : setArgs es with
      | nil => simp [step_set]
      | cons a as =>
        obtain ⟨x, hx⟩ : ∃ x, (a :: as).getLast? = some x :=
          ⟨_, List.getLast?_eq_getLast _ (List.cons_ne_nil a as)⟩
        simp [List.getLast?_cons_cons, hx]
    | hw t f =>
      simp only [setArgs, step_hw]

/-! ## Period bookkeeping -/

theorem periodBase_lt (s : State) : periodBase s < 65536 := by
  unfold periodBase sub16
  split <;> omega

theorem periodBase_step (s : State) (e : Event) :
    periodBase (step s e) =
      (periodBase s +
        (if e = Event.isr ∧ acting s = true ∧ s.CCP1MODE ≠ 0b1000 then SERVO_PERIOD else 0))
        % 65536 := by
  cases e with
  | isr =>
    unfold periodBase
    rw [step_isr, isr_CCPR1, isr_CCP1MODE, isr_servo_pulse_time]
    by_cases ha : acting s = true <;> by_cases hm : s.CCP1MODE = 0b1000 <;>
      simp [ha, hm, add16, sub16, SERVO_PERIOD] <;> omega
  | set w =>
    have := periodBase_lt s
    simp only [step_set, periodBase, reduceCtorEq, false_and, if_false] at *
    omega
  | hw t f =>
    have := periodBase_lt s
    simp only [step_hw, periodBase, reduceCtorEq, false_and, if_false] at *
    omega

theorem periodBase_run (s : State) (evs : List Event) :
    periodBase (run s evs) = (periodBase s + latchCount s evs * SERVO_PERIOD) % 65536 := by
  induction evs generalizing s with
  | nil =>
    have := periodBase_lt s
    simp only [run, latchCount]
    omega
  | cons e es ih =>
    simp only [run, latchCount]
    rw [ih (step s e), periodBase_step]
    split <;> simp only [SERVO_PERIOD] <;> omega

/-- From either compare mode, the acting invocations alternate the mode, and
every second one latches. -/
theorem run_mode_parity (s : State) (evs : List Event) :
    (s.CCP1MODE = 0b1000 →
      (run s evs).CCP1MODE = (if actingCount s evs % 2 = 0 then 0b1000 else 0b1001) ∧
        latchCount s evs = actingCount s evs / 2) ∧
    (s.CCP1MODE = 0b1001 →
      (run s evs).CCP1MODE = (if actingCount s evs % 2 = 0 then 0b1001 else 0b1000) ∧
        latchCount s evs = (actingCount s evs + 1) / 2) := by
  induction evs generalizing s with
  | nil => simp [run, actingCount, latchCount]
  | cons e es ih =>
    obtain ⟨ih8, ih9⟩ := ih (step s e)
    simp only [run, actingCount, latchCount]
    cases e with
    | isr =>
      by_cases ha : acting s = true
      · constructor
        · intro hm
          have hm2 : (step s Event.isr).CCP1MODE = 0b1001 := by
            rw [step_isr, isr_CCP1MODE]; simp [ha, hm]
          obtain ⟨h1, h2⟩ := ih9 hm2
          rw [h1, h2]
          simp only [ha, hm, true_and, and_true, if_true, ne_eq, not_true_eq_false, and_false,
            if_false]
          constructor
          · split <;> split <;> first | rfl | omega
          · omega
        · intro hm
          have hm2 : (step s Event.isr).CCP1MODE = 0b1000 := by
            rw [step_isr, isr_CCP1MODE]; simp [ha, hm]
          obtain ⟨h1, h2⟩ := ih8 hm2
          rw [h1, h2]
          simp only [ha, hm, true_and, and_true, if_true]
          constructor
          · split <;> split <;> first | rfl | omega
          · simp; omega
      · have hna : acting s = false := by simpa using ha
        have hs : step s Event.isr = s := by rw [step_isr, isr_not_acting s hna]
        rw [hs] at ih8 ih9
        simp only [hs, hna, Bool.false_eq_true, and_false, false_and, if_false, Nat.zero_add]
        exact ⟨ih8, ih9⟩
    | set w =>
      simp only [reduceCtorEq, false_and, if_false, Nat.zero_add]
      exact ⟨ih8, ih9⟩
    | hw t f =>
      simp only [reduceCtorEq, false_and, if_false, Nat.zero_add]
      exact ⟨ih8, ih9⟩

theorem acting_isr_CCPR1_high (s : State) (ha : acting s = true) (hm : s.CCP1MODE = 0b1000) :
    (isr s).CCPR1 = add16 s.CCPR1 s.servo_pulse_time := by
  rw [isr_CCPR1]; simp [ha, hm]

theorem acting_isr_CCPR1_low (s : State) (ha : acting s = true) (hm : s.CCP1MODE ≠ 0b1000) :
    (isr s).CCPR1 = add16 s.CCPR1 (sub16 SERVO_PERIOD s.servo_pulse_time) := by
  rw [isr_CCPR1]; simp [ha, hm]

theorem add16_add16_sub16 (c w : Nat) :
    add16 (add16 c w) (sub16 SERVO_PERIOD w) = (c + SERVO_PERIOD) % 65536 := by
  unfold add16 sub16 SERVO_PERIOD
  omega

/-- After an acting handler step in Set On Match mode and any events that are
not acting handler steps: Clear On Match mode, same width, compare advanced by
the width. -/
theorem quiet_after_high (s : State) (evs : List Event) (ha : acting s = true)
    (hm : s.CCP1MODE = 0b1000) (hq : actingCount (isr s) evs = 0) :
    (run (isr s) evs).CCP1MODE = 0b1001 ∧
      (run (isr s) evs).servo_pulse_time = s.servo_pulse_time ∧
      (run (isr s) evs).CCPR1 = add16 s.CCPR1 s.servo_pulse_time := by
  obtain ⟨q1, q2, q3⟩ := run_quiet (isr s) evs hq
  refine ⟨?_, ?_, ?_⟩
  · rw [q2, isr_CCP1MODE]; simp [ha, hm]
  · rw [q3, isr_servo_pulse_time]; simp [hm]
  · rw [q1, acting_isr_CCPR1_high s ha hm]

/-- After an acting handler step in another mode and any events that are not
acting handler steps: Set On Match mode, the pending width latched, compare
advanced by the period less the old width. -/
theorem quiet_after_low (s : State) (evs : List Event) (ha : acting s = true)
    (hm : s.CCP1MODE ≠ 0b1000) (hq : actingCount (isr s) evs = 0) :
    (run (isr s) evs).CCP1MODE = 0b1000 ∧
      (run (isr s) evs).servo_pulse_time = s.new_pulse_time ∧
      (run (isr s) evs).CCPR1 = add16 s.CCPR1 (sub16 SERVO_PERIOD s.servo_pulse_time) := by
  obtain ⟨q1, q2, q3⟩ := run_quiet (isr s) evs hq
  refine ⟨?_, ?_, ?_⟩
  · rw [q2, isr_CCP1MODE]; simp [ha, hm]
  · rw [q3, isr_servo_pulse_time]; simp [ha, hm]
  · rw [q1, acting_isr_CCPR1_low s ha hm]

/-- Both widths lie strictly between zero and the period. -/
theorem widths_in_range_run (s : State) (evs : List Event)
    (hs : 0 < s.servo_pulse_time ∧ s.servo_pulse_time < SERVO_PERIOD)
    (hn : 0 < s.new_pulse_time ∧ s.new_pulse_time < SERVO_PERIOD)
    (hargs : ∀ w ∈ setArgs evs, 0 < w ∧ w < SERVO_PERIOD) :
    (0 < (run s evs).servo_pulse_time ∧ (run s evs).servo_pulse_time < SERVO_PERIOD) ∧
    (0 < (run s evs).new_pulse_time ∧ (run s evs).new_pulse_time < SERVO_PERIOD) := by
  induction evs generalizing s with
  | nil => exact ⟨hs, hn⟩
  | cons e es ih =>
    simp only [run]
    cases e with
    | isr =>
      apply ih
      · rw [step_isr, isr_servo_pulse_time]
        split
        · exact hn
        · exact hs
      · rw [step_isr, isr_new_pulse_time]; exact hn
      · intro w hw; exact hargs w (by simpa [setArgs] using hw)
    | set w =>
      have hw := hargs w (by simp [setArgs])
      apply ih
      · exact hs
      · rw [step_set]
        show 0 < w % 65536 ∧ w % 65536 < SERVO_PERIOD
        unfold SERVO_PERIOD at hw ⊢
        omega
      · intro v hv; exact hargs v (by simp [setArgs, hv])
    | hw t f =>
      apply ih
      · exact hs
      · exact hn
      · intro w hw; exact hargs w (by simpa [setArgs] using hw)

/-! ## The claims -/

/-- C1 (period conservation).  From a state in Set On Match mode, an acting
handler step, any events that are not acting handler steps (setter calls with
any arguments among them), and a second acting handler step add the width in
use and then `SERVO_PERIOD` less that width to `CCPR1`, which ends at its
starting value plus `SERVO_PERIOD` modulo `2^16`; and along any sequence of
events with `2 * n` acting handler steps `CCPR1` moves by `n * SERVO_PERIOD`
modulo `2^16`. -/
theorem period_conservation (s : State) (hm : s.CCP1MODE = 0b1000) :
    (∀ mid : List Event, acting s = true → actingCount (isr s) mid = 0 →
        acting (run (isr s) mid) = true →
        (isr s).CCPR1 = add16 s.CCPR1 s.servo_pulse_time ∧
        (isr (run (isr s) mid)).CCPR1 =
          add16 (run (isr s) mid).CCPR1 (sub16 SERVO_PERIOD s.servo_pulse_time) ∧
        (isr (run (isr s) mid)).CCPR1 = (s.CCPR1 + SERVO_PERIOD) % 65536) ∧
    (∀ (evs : List Event) (n : Nat), actingCount s evs = 2 * n →
        (run s evs).CCPR1 % 65536 = (s.CCPR1 + n * SERVO_PERIOD) % 65536) := by
  constructor
  · intro mid ha hq ha1
    obtain ⟨q1, q2, q3⟩ := run_quiet (isr s) mid hq
    have hhi := acting_isr_CCPR1_high s ha hm
    have hm1 : (run (isr s) mid).CCP1MODE ≠ 0b1000 := by
      rw [q2, isr_CCP1MODE]; simp [ha, hm]
    have hw : (run (isr s) mid).servo_pulse_time = s.servo_pulse_time := by
      rw [q3, isr_servo_pulse_time]; simp [hm]
    have hlo := acting_isr_CCPR1_low _ ha1 hm1
    rw [hw] at hlo
    refine ⟨hhi, hlo, ?_⟩
    rw [hlo, q1, hhi, add16_add16_sub16]
  · intro evs n hk
    have hb := periodBase_run s evs
    obtain ⟨hmode, hl⟩ := (run_mode_parity s evs).1 hm
    have hmode8 : (run s evs).CCP1MODE = 0b1000 := by
      rw [hmode, hk]; simp
    have hln : latchCount s evs = n := by rw [hl, hk]; omega
    unfold periodBase at hb
    rw [if_pos hmode8, if_pos hm, hln] at hb
    rw [hb]
    omega

/-- Witness for C1: the start-up state, one period with a setter call inside. -/
theorem period_conservation_witness :
    startState.CCP1MODE = 0b1000 ∧
    (isr (run (isr (compare_match startState))
        [Event.set 2000, Event.hw 11500 true])).CCPR1 = 30000 ∧
    (run (compare_match startState)
        [Event.isr, Event.set 2000, Event.hw 11500 true, Event.isr, Event.set 700,
         Event.hw 30000 true, Event.isr, Event.hw 31500 true, Event.isr]).CCPR1 % 65536
      = 50000 := by
  have h := period_conservation (compare_match startState) (by decide)
  refine ⟨by decide, ?_, ?_⟩
  · have h1 := (h.1 [Event.set 2000, Event.hw 11500 true] (by decide) (by decide)
      (by decide)).2.2
    rw [h1]; decide
  · have h2 := h.2 [Event.isr, Event.set 2000, Event.hw 11500 true, Event.isr, Event.set 700,
         Event.hw 30000 true, Event.isr, Event.hw 31500 true, Event.isr] 2 (by decide)
    rw [h2]; decide

/-- C2 (glitch-free commit).  A period starts with an acting handler step in
Set On Match mode with width `w0 = servo_pulse_time`.  Whatever setter calls
and other non-acting events occur before the next acting step and after it,
the high-phase step adds `w0` to `CCPR1`, the low-phase step adds
`SERVO_PERIOD - w0` (16-bit), nothing else moves `CCPR1`, and the period ends
back in Set On Match mode. -/
theorem glitch_free_commit (s0 : State) (evs1 evs2 : List Event)
    (ha0 : acting s0 = true) (hm0 : s0.CCP1MODE = 0b1000)
    (hq1 : actingCount (isr s0) evs1 = 0)
    (ha1 : acting (run (isr s0) evs1) = true)
    (hq2 : actingCount (isr (run (isr s0) evs1)) evs2 = 0) :
    (isr s0).CCPR1 = add16 s0.CCPR1 s0.servo_pulse_time ∧
    (run (isr s0) evs1).CCPR1 = (isr s0).CCPR1 ∧
    (isr (run (isr s0) evs1)).CCPR1 =
      add16 (run (isr s0) evs1).CCPR1 (sub16 SERVO_PERIOD s0.servo_pulse_time) ∧
    (run (isr (run (isr s0) evs1)) evs2).CCPR1 = (isr (run (isr s0) evs1)).CCPR1 ∧
    (run (isr (run (isr s0) evs1)) evs2).CCP1MODE = 0b1000 := by
  obtain ⟨m1, w1, c1⟩ := quiet_after_high s0 evs1 ha0 hm0 hq1
  have hm1 : (run (isr s0) evs1).CCP1MODE ≠ 0b1000 := by rw [m1]; decide
  obtain ⟨m2, _, c2⟩ := quiet_after_low _ evs2 ha1 hm1 hq2
  have hhi := acting_isr_CCPR1_high s0 ha0 hm0
  have hlo := acting_isr_CCPR1_low _ ha1 hm1
  rw [w1] at hlo c2
  exact ⟨hhi, by rw [c1, hhi], hlo, by rw [c2, hlo], m2⟩

/-- Witness for C2: the first period after start-up, with setter calls in both
phases. -/
theorem glitch_free_commit_witness :
    (isr (compare_match startState)).CCPR1 = 11500 ∧
    (isr (run (isr (compare_match startState))
      [Event.set 2000, Event.set 0, Event.hw 11500 true])).CCPR1 = 30000 := by
  have h := glitch_free_commit (compare_match startState)
    [Event.set 2000, Event.set 0, Event.hw 11500 true] [Event.set 900, Event.isr]
    (by decide) (by decide) (by decide) (by decide) (by decide)
  refine ⟨?_, ?_⟩
  · rw [h.1]; decide
  · rw [h.2.2.1]; decide

/-- C3, refuted as stated.  After start-up the first period runs (rising-edge
step, latching step); `set_servo_pulse_time(2000)` is then called, still inside
that period and with no later call; the next period nevertheless begins with a
high-phase increment of 1500, not 2000. -/
theorem new_width_next_period_counterexample :
    actingCount startState lowPhaseCallTrace = 2 ∧
    setArgs lowPhaseCallTrace = [2000] ∧
    acting (run startState lowPhaseCallTrace) = true ∧
    (run startState lowPhaseCallTrace).CCP1MODE = 0b1000 ∧
    (run startState lowPhaseCallTrace).new_pulse_time = 2000 ∧
    (isr (run startState lowPhaseCallTrace)).CCPR1
      = add16 (run startState lowPhaseCallTrace).CCPR1 1500 ∧
    (isr (run startState lowPhaseCallTrace)).CCPR1
      ≠ add16 (run startState lowPhaseCallTrace).CCPR1 2000 := by
  decide

/-- C3, amended.  A call `set_servo_pulse_time(w)` made in the high phase of a
period (after the acting step in Set On Match mode and before the next acting
step, which latches), with no later call before that latch, decides the period
that immediately follows: the latch stores `w`, the next high-phase step adds
`w` to `CCPR1` and the next low-phase step adds `SERVO_PERIOD - w` (16-bit),
whatever calls are made after the latch. -/
theorem new_width_next_period (s0 : State) (evsA evsB evsC evsD : List Event) (w : Nat)
    (hw16 : w < 65536)
    (ha0 : acting s0 = true) (hm0 : s0.CCP1MODE = 0b1000)
    (hq1 : actingCount (isr s0) (evsA ++ Event.set w :: evsB) = 0)
    (hB : setArgs evsB = [])
    (ha1 : acting (run (isr s0) (evsA ++ Event.set w :: evsB)) = true)
    (hq2 : actingCount (isr (run (isr s0) (evsA ++ Event.set w :: evsB))) evsC = 0)
    (ha2 : acting (run (isr (run (isr s0) (evsA ++ Event.set w :: evsB))) evsC) = true)
    (hq3 : actingCount
      (isr (run (isr (run (isr s0) (evsA ++ Event.set w :: evsB))) evsC)) evsD = 0)
    (ha3 : acting (run
      (isr (run (isr (run (isr s0) (evsA ++ Event.set w :: evsB))) evsC)) evsD) = true) :
    (isr (run (isr s0) (evsA ++ Event.set w :: evsB))).servo_pulse_time = w ∧
    (run (isr (run (isr s0) (evsA ++ Event.set w :: evsB))) evsC).CCP1MODE = 0b1000 ∧
    (isr (run (isr (run (isr s0) (evsA ++ Event.set w :: evsB))) evsC)).CCPR1 =
      add16 (run (isr (run (isr s0) (evsA ++ Event.set w :: evsB))) evsC).CCPR1 w ∧
    (isr (run (isr (run (isr (run (isr s0) (evsA ++ Event.set w :: evsB))) evsC))
        evsD)).CCPR1 =
      add16 (run (isr (run (isr (run (isr s0) (evsA ++ Event.set w :: evsB))) evsC))
        evsD).CCPR1 (sub16 SERVO_PERIOD w) := by
  generalize hs1 : run (isr s0) (evsA ++ Event.set w :: evsB) = s1 at *
  obtain ⟨m1, _, _⟩ := quiet_after_high s0 _ ha0 hm0 hq1
  rw [hs1] at m1
  have hn1 : s1.new_pulse_time = w := by
    rw [← hs1, run_append]
    show (run (step (run (isr s0) evsA) (Event.set w)) evsB).new_pulse_time = w
    rw [run_new_pulse_time, hB]
    simp only [List.getLast?_nil, step_set]
    exact Nat.mod_eq_of_lt hw16
  have hm1 : s1.CCP1MODE ≠ 0b1000 := by rw [m1]; decide
  obtain ⟨m2, w2, _⟩ := quiet_after_low s1 evsC ha1 hm1 hq2
  rw [hn1] at w2
  generalize hs2 : run (isr s1) evsC = s2 at *
  obtain ⟨m3, w3, _⟩ := quiet_after_high s2 evsD ha2 m2 hq3
  generalize hs3 : run (isr s2) evsD = s3 at *
  have hm3 : s3.CCP1MODE ≠ 0b1000 := by rw [m3]; decide
  refine ⟨?_, m2, ?_, ?_⟩
  · rw [isr_servo_pulse_time]; simp [ha1, hm1, hn1]
  · rw [acting_isr_CCPR1_high s2 ha2 m2, w2]
  · rw [acting_isr_CCPR1_low s3 ha3 hm3, w3, w2]

/-- Witness for C3 (amended): a call of the setter with 2000 in the first high
phase after start-up; the next period runs 30000, 32000, 50000. -/
theorem new_width_next_period_witness :
    (isr (run (isr (compare_match startState))
      ([] ++ Event.set 2000 :: [Event.hw 11500 true]))).servo_pulse_time = 2000 ∧
    (isr (run (isr (run (isr (compare_match startState))
      ([] ++ Event.set 2000 :: [Event.hw 11500 true])))
      [Event.set 900, Event.hw 30000 true])).CCPR1 = 32000 := by
  have h := new_width_next_period (compare_match startState) [] [Event.hw 11500 true]
    [Event.set 900, Event.hw 30000 true] [Event.hw 32000 true] 2000
    (by decide) (by decide) (by decide) (by decide) (by decide) (by decide) (by decide)
    (by decide) (by decide) (by decide)
  refine ⟨h.1, ?_⟩
  rw [h.2.2.1]; decide

/-- C4 (the latch).  The handler stores the pending width `new_pulse_time` in
`servo_pulse_time` exactly when it is acting and the mode is not Set On Match
(the Clear On Match event that ends the high pulse); in an acting step in Set
On Match mode and in every non-acting invocation `servo_pulse_time` keeps its
value.  From start-up the number of latching steps is the number of completed
periods: one latch for every two acting steps. -/
theorem latch_once_per_period (s p : State) (evs : List Event) :
    (isr s).servo_pulse_time =
      (if acting s = true ∧ s.CCP1MODE ≠ 0b1000 then s.new_pulse_time
       else s.servo_pulse_time) ∧
    latchCount (init_system p) evs = actingCount (init_system p) evs / 2 :=
  ⟨isr_servo_pulse_time s, ((run_mode_parity (init_system p) evs).1 rfl).2⟩

/-- C5, refuted as stated.  After start-up and the rising-edge step the setter
is called with 2000 and the compare match that ends the high pulse arrives.
The acting step taken there latches 2000, yet it adds `20000 - 1500` to
`CCPR1` (11500 to 30000), not `20000 - 2000`. -/
theorem low_phase_width_counterexample :
    acting (run startState highPhaseCallTrace) = true ∧
    (run startState highPhaseCallTrace).CCP1MODE = 0b1001 ∧
    (run startState highPhaseCallTrace).new_pulse_time = 2000 ∧
    (isr (run startState highPhaseCallTrace)).servo_pulse_time = 2000 ∧
    (run startState highPhaseCallTrace).CCPR1 = 11500 ∧
    (isr (run startState highPhaseCallTrace)).CCPR1 = 30000 ∧
    (isr (run startState highPhaseCallTrace)).CCPR1
      ≠ add16 (run startState highPhaseCallTrace).CCPR1
          (sub16 SERVO_PERIOD (run startState highPhaseCallTrace).new_pulse_time) := by
  decide

/-- C5, amended.  The acting step that ends the high pulse adds to `CCPR1`
`SERVO_PERIOD` less the width `servo_pulse_time` it started with (16-bit), and
only then latches the pending width; the latched value `new_pulse_time` is the
increment of the next high-phase step. -/
theorem low_phase_uses_old_width (s : State) (evs : List Event)
    (ha : acting s = true) (hm : s.CCP1MODE ≠ 0b1000)
    (hq : actingCount (isr s) evs = 0) (ha2 : acting (run (isr s) evs) = true) :
    (isr s).CCPR1 = add16 s.CCPR1 (sub16 SERVO_PERIOD s.servo_pulse_time) ∧
    (isr s).servo_pulse_time = s.new_pulse_time ∧
    (isr (run (isr s) evs)).CCPR1 = add16 (run (isr s) evs).CCPR1 s.new_pulse_time := by
  obtain ⟨m, w, _⟩ := quiet_after_low s evs ha hm hq
  refine ⟨acting_isr_CCPR1_low s ha hm, ?_, ?_⟩
  · rw [isr_servo_pulse_time]; simp [ha, hm]
  · rw [acting_isr_CCPR1_high _ ha2 m, w]

/-- Witness for C5 (amended): the latching step after a high-phase setter call. -/
theorem low_phase_uses_old_width_witness :
    (isr (run startState highPhaseCallTrace)).CCPR1 = 30000 ∧
    (isr (run startState highPhaseCallTrace)).servo_pulse_time = 2000 ∧
    (isr (run (isr (run startState highPhaseCallTrace))
      [Event.set 700, Event.hw 30000 true])).CCPR1 = 32000 := by
  have h := low_phase_uses_old_width (run startState highPhaseCallTrace)
    [Event.set 700, Event.hw 30000 true] (by decide) (by decide) (by decide) (by decide)
  refine ⟨?_, ?_, ?_⟩
  · rw [h.1]; decide
  · rw [h.2.1]; decide
  · rw [h.2.2]; decide

/-- C6 (phase alternation).  From the state left by `init_system`, along every
sequence of handler invocations, setter calls and hardware events, the mode is
Set On Match (`0b1000`) after an even number of acting handler steps and Clear
On Match (`0b1001`) after an odd number. -/
theorem phase_alternation (p : State) (evs : List Event) :
    (init_system p).CCP1MODE = 0b1000 ∧
    (run (init_system p) evs).CCP1MODE =
      (if actingCount (init_system p) evs % 2 = 0 then 0b1000 else 0b1001) :=
  ⟨rfl, ((run_mode_parity (init_system p) evs).1 rfl).1⟩

/-- C7 (start-up scenario).  After the initialisers and `init_system` both
widths are 1500, `CCPR1 = 10000`, `TMR1 = 0`, the mode is Set On Match and both
enables are set; with no setter call, three compare matches each followed by
the handler are three acting steps that set `CCPR1` to 11500, 30000 and 31500
with `servo_pulse_time` 1500 after each; the first and third matches (mode Set
On Match, the rising edges) occur at counter values 10000 and 30000. -/
theorem startup_scenario (p : State) :
    (init_system (c_init p)).servo_pulse_time = 1500 ∧
    (init_system (c_init p)).new_pulse_time = 1500 ∧
    (init_system (c_init p)).CCPR1 = 10000 ∧
    (init_system (c_init p)).TMR1 = 0 ∧
    (init_system (c_init p)).CCP1MODE = 0b1000 ∧
    (init_system (c_init p)).CCP1IE = true ∧
    (init_system (c_init p)).PEIE = true ∧
    acting (compare_match (init_system (c_init p))) = true ∧
    (compare_match (init_system (c_init p))).TMR1 = 10000 ∧
    (isr (compare_match (init_system (c_init p)))).CCPR1 = 11500 ∧
    (isr (compare_match (init_system (c_init p)))).servo_pulse_time = 1500 ∧
    acting (compare_match (isr (compare_match (init_system (c_init p))))) = true ∧
    (isr (compare_match (isr (compare_match (init_system (c_init p)))))).CCPR1 = 30000 ∧
    (isr (compare_match (isr (compare_match (init_system (c_init p)))))).servo_pulse_time
      = 1500 ∧
    (isr (compare_match (isr (compare_match (init_system (c_init p)))))).CCP1MODE
      = 0b1000 ∧
    acting (compare_match (isr (compare_match (isr (compare_match
      (init_system (c_init p))))))) = true ∧
    (compare_match (isr (compare_match (isr (compare_match
      (init_system (c_init p))))))).TMR1 = 30000 ∧
    (isr (compare_match (isr (compare_match (isr (compare_match
      (init_system (c_init p)))))))).CCPR1 = 31500 ∧
    (isr (compare_match (isr (compare_match (isr (compare_match
      (init_system (c_init p)))))))).servo_pulse_time = 1500 := by
  simp [init_system, init_interrupts, init_ccp, init_timers, init_pps, init_ports, c_init,
    compare_match, isr, acting, add16, sub16, SERVO_PERIOD]

/-- C8, refuted as stated.  The setter stores its argument as it is: after the
calls with 0, with `SERVO_PERIOD` and with 30000 the pending width is 0, 20000
and 30000, none of them strictly between 0 and `SERVO_PERIOD`. -/
theorem setter_clamps_counterexample :
    (set_servo_pulse_time startState 0).new_pulse_time = 0 ∧
    (set_servo_pulse_time startState SERVO_PERIOD).new_pulse_time = 20000 ∧
    (set_servo_pulse_time startState 30000).new_pulse_time = 30000 ∧
    ¬ (0 < (set_servo_pulse_time startState 0).new_pulse_time ∧
        (set_servo_pulse_time startState 0).new_pulse_time < SERVO_PERIOD) := by
  decide

/-- C8, amended.  The setter does not clamp: for every 16-bit argument `w` the
pending width after `set_servo_pulse_time(w)` is `w`, so it lies strictly
between 0 and `SERVO_PERIOD` exactly when `w` does. -/
theorem setter_stores_argument (s : State) (w : Nat) (hw : w < 65536) :
    (set_servo_pulse_time s w).new_pulse_time = w ∧
    ((0 < (set_servo_pulse_time s w).new_pulse_time ∧
        (set_servo_pulse_time s w).new_pulse_time < SERVO_PERIOD) ↔
      (0 < w ∧ w < SERVO_PERIOD)) := by
  have h : (set_servo_pulse_time s w).new_pulse_time = w := by
    rw [set_new_pulse_time]; exact Nat.mod_eq_of_lt hw
  rw [h]
  exact ⟨rfl, Iff.rfl⟩

/-- Witness for C8 (amended): the argument 65535 is stored unchanged. -/
theorem setter_stores_argument_witness :
    (set_servo_pulse_time startState 65535).new_pulse_time = 65535 :=
  (setter_stores_argument startState 65535 (by decide)).1

/-- C9, refuted as stated.  From start-up, `set_servo_pulse_time(0)` followed
by one full period (rising-edge step, latching step) leaves
`servo_pulse_time = 0`. -/
theorem width_invariant_counterexample :
    startState.servo_pulse_time = 1500 ∧
    actingCount startState zeroWidthTrace = 2 ∧
    (run startState zeroWidthTrace).servo_pulse_time = 0 ∧
    ¬ (0 < (run startState zeroWidthTrace).servo_pulse_time ∧
        (run startState zeroWidthTrace).servo_pulse_time < SERVO_PERIOD) := by
  decide

/-- C9, amended.  In every state reached from the initial state (both widths
1500) by handler invocations, hardware events and setter calls whose arguments
all lie strictly between 0 and `SERVO_PERIOD`, `servo_pulse_time` and
`new_pulse_time` lie strictly between 0 and `SERVO_PERIOD`. -/
theorem width_invariant (p : State) (evs : List Event)
    (hargs : ∀ w ∈ setArgs evs, 0 < w ∧ w < SERVO_PERIOD) :
    (0 < (run (init_system (c_init p)) evs).servo_pulse_time ∧
      (run (init_system (c_init p)) evs).servo_pulse_time < SERVO_PERIOD) ∧
    (0 < (run (init_system (c_init p)) evs).new_pulse_time ∧
      (run (init_system (c_init p)) evs).new_pulse_time < SERVO_PERIOD) :=
  widths_in_range_run (init_system (c_init p)) evs
    (by show 0 < 1500 ∧ 1500 < SERVO_PERIOD; decide)
    (by show 0 < 1500 ∧ 1500 < SERVO_PERIOD; decide) hargs

/-- Witness for C9 (amended): two in-range calls and one and a half periods. -/
theorem width_invariant_witness :
    0 < (run startState [Event.set 19999, Event.hw 10000 true, Event.isr, Event.set 1,
      Event.hw 11500 true, Event.isr, Event.hw 30000 true, Event.isr]).servo_pulse_time ∧
    (run startState [Event.set 19999, Event.hw 10000 true, Event.isr, Event.set 1,
      Event.hw 11500 true, Event.isr, Event.hw 30000 true, Event.isr]).servo_pulse_time
      < SERVO_PERIOD :=
  (width_invariant zeroState [Event.set 19999, Event.hw 10000 true, Event.isr, Event.set 1,
      Event.hw 11500 true, Event.isr, Event.hw 30000 true, Event.isr] (by decide)).1

/-- C10 (last write wins).  When the setter is called with the non-empty
sequence of widths `ws`, each strictly between 0 and `SERVO_PERIOD`, in a
sequence of events `evs`, the pending width afterwards is the last element of
`ws`; and after further events without a setter call, the latching step (acting,
mode not Set On Match) stores that last element in `servo_pulse_time`. -/
theorem last_write_wins (s : State) (evs evs2 : List Event) (ws : List Nat)
    (hne : ws ≠ []) (hargs : setArgs evs = ws)
    (hrange : ∀ w ∈ ws, 0 < w ∧ w < SERVO_PERIOD)
    (hnone : setArgs evs2 = [])
    (ha : acting (run (run s evs) evs2) = true)
    (hm : (run (run s evs) evs2).CCP1MODE ≠ 0b1000) :
    (run s evs).new_pulse_time = ws.getLast hne ∧
    (isr (run (run s evs) evs2)).servo_pulse_time = ws.getLast hne := by
  have h1 : (run s evs).new_pulse_time = ws.getLast hne := by
    rw [run_new_pulse_time, hargs, List.getLast?_eq_getLast ws hne]
    have hr := hrange _ (List.getLast_mem hne)
    unfold SERVO_PERIOD at hr
    show ws.getLast hne % 65536 = ws.getLast hne
    omega
  have h2 : (run (run s evs) evs2).new_pulse_time = ws.getLast hne := by
    rw [run_new_pulse_time, hnone]
    exact h1
  refine ⟨h1, ?_⟩
  rw [isr_servo_pulse_time]
  simp [ha, hm, h2]

/-- Witness for C10: three calls in the first high phase; 1200 is latched. -/
theorem last_write_wins_witness :
    (run startState [Event.hw 10000 true, Event.isr, Event.set 700, Event.set 2400,
      Event.set 1200]).new_pulse_time = 1200 ∧
    (isr (run (run startState [Event.hw 10000 true, Event.isr, Event.set 700, Event.set 2400,
      Event.set 1200]) [Event.hw 11500 true])).servo_pulse_time = 1200 :=
  last_write_wins startState [Event.hw 10000 true, Event.isr, Event.set 700, Event.set 2400,
      Event.set 1200] [Event.hw 11500 true] [700, 2400, 1200] (by decide) (by decide)
      (by decide) (by decide) (by decide) (by decide)

/-- C11 (frame of the setter).  For every state and argument the call changes
`new_pulse_time` and nothing else: `CCP1IE` has the value it had before the
call, whether set or clear, and `servo_pulse_time`, `CCPR1` and `CCP1MODE` are
unchanged. -/
theorem setter_frame (s : State) (w : Nat) :
    set_servo_pulse_time s w = { s with new_pulse_time := w % 65536 } ∧
    (set_servo_pulse_time s w).CCP1IE = s.CCP1IE ∧
    (set_servo_pulse_time s w).servo_pulse_time = s.servo_pulse_time ∧
    (set_servo_pulse_time s w).CCPR1 = s.CCPR1 ∧
    (set_servo_pulse_time s w).CCP1MODE = s.CCP1MODE :=
  ⟨rfl, rfl, rfl, rfl, rfl⟩

/-- C12 (foreign events).  When `PEIE` is clear, or `CCP1IE` is clear, or
`CCP1IF` is clear, an invocation of the handler leaves the whole state
unchanged. -/
theorem isr_ignores_foreign_events (s : State)
    (h : s.PEIE = false ∨ s.CCP1IE = false ∨ s.CCP1IF = false) : isr s = s := by
  apply isr_not_acting
  unfold acting
  rcases h with h | h | h <;> simp [h]

/-- Witness for C12: after start-up, with the flag still clear, and with
`CCP1IE` cleared while the flag is raised. -/
theorem isr_ignores_foreign_events_witness :
    isr startState = startState ∧
    isr { compare_match startState with CCP1IE := false }
      = { compare_match startState with CCP1IE := false } :=
  ⟨isr_ignores_foreign_events startState (by decide),
   isr_ignores_foreign_events { compare_match startState with CCP1IE := false } (by decide)⟩

/-- C14 (one step per event).  An acting handler step ends with `CCP1IF`
cleared; after any invocation the handler is no longer acting, so a second
invocation without a new compare match changes nothing: `isr (isr s) = isr s`. -/
theorem isr_idempotent (s : State) :
    (isr s).CCP1IF = (if acting s = true then false else s.CCP1IF) ∧
    acting (isr s) = false ∧
    isr (isr s) = isr s := by
  have h1 : (isr s).CCP1IF = (if acting s = true then false else s.CCP1IF) := by
    unfold isr acting
    cases h1 : s.PEIE <;> cases h2 : s.CCP1IE <;> cases h3 : s.CCP1IF <;> simp [h1, h2, h3]
    split <;> simp
  have h2 : acting (isr s) = false := by
    cases ha : acting s
    · rw [isr_not_acting s ha]; exact ha
    · unfold acting
      rw [h1]; simp [ha]
  exact ⟨h1, h2, isr_not_acting (isr s) h2⟩

/-- C15 (no dependence on the live counter).  Changing only `TMR1`, or only
`new_pulse_time`, changes neither the `CCPR1` nor the `CCP1MODE` the handler
produces; an acting step sets `CCPR1` to the old `CCPR1` plus an increment
fixed by `CCP1MODE` and `servo_pulse_time`, modulo `2^16`, and a non-acting
invocation leaves `CCPR1` as it is. -/
theorem compare_independent_of_counter (s : State) (t n : Nat) :
    (isr { s with TMR1 := t }).CCPR1 = (isr s).CCPR1 ∧
    (isr { s with TMR1 := t }).CCP1MODE = (isr s).CCP1MODE ∧
    (isr { s with new_pulse_time := n }).CCPR1 = (isr s).CCPR1 ∧
    (isr { s with new_pulse_time := n }).CCP1MODE = (isr s).CCP1MODE ∧
    (isr s).CCPR1 =
      (if acting s = true then
        (s.CCPR1 + isr_increment s.CCP1MODE s.servo_pulse_time) % 65536
       else s.CCPR1) := by
  refine ⟨?_, ?_, ?_, ?_, ?_⟩
  · rw [isr_CCPR1, isr_CCPR1]; rfl
  · rw [isr_CCP1MODE, isr_CCP1MODE]; rfl
  · rw [isr_CCPR1, isr_CCPR1]; rfl
  · rw [isr_CCP1MODE, isr_CCP1MODE]; rfl
  · rw [isr_CCPR1]
    unfold isr_increment add16
    by_cases ha : acting s = true <;> by_cases hm : s.CCP1MODE = 0b1000 <;> simp [ha, hm]

/-- Without a setter call, equal widths stay equal and unchanged. -/
theorem run_steady (s : State) (evs : List Event) (w : Nat)
    (hs : s.servo_pulse_time = w) (hn : s.new_pulse_time = w) (hno : setArgs evs = []) :
    (run s evs).servo_pulse_time = w ∧ (run s evs).new_pulse_time = w := by
  induction evs generalizing s with
  | nil => exact ⟨hs, hn⟩
  | cons e es ih =>
    simp only [run]
    cases e with
    | isr =>
      apply ih
      · rw [step_isr, isr_servo_pulse_time]
        split
        · exact hn
        · exact hs
      · rw [step_isr, isr_new_pulse_time]; exact hn
      · simpa [setArgs] using hno
    | set v => simp [setArgs] at hno
    | hw t f =>
      apply ih
      · exact hs
      · exact hn
      · simpa [setArgs] using hno

/-- C16 (steady state).  From a state with `servo_pulse_time = new_pulse_time
= w`, along any sequence of handler invocations and hardware events without a
setter call, both widths stay `w`; every acting step adds `w` to `CCPR1` in
Set On Match mode and `SERVO_PERIOD - w` (16-bit) otherwise, and moves to Set
On Match mode exactly when it was not there; so from Set On Match mode, after
`k` acting steps `CCPR1` has advanced by `k / 2` periods plus `w` when `k` is
odd, modulo `2^16`. -/
theorem steady_state (s : State) (evs : List Event) (w : Nat)
    (hs : s.servo_pulse_time = w) (hn : s.new_pulse_time = w) (hno : setArgs evs = []) :
    (run s evs).servo_pulse_time = w ∧ (run s evs).new_pulse_time = w ∧
    (acting (run s evs) = true →
      (isr (run s evs)).CCPR1 =
        add16 (run s evs).CCPR1
          (if (run s evs).CCP1MODE = 0b1000 then w else sub16 SERVO_PERIOD w) ∧
      ((isr (run s evs)).CCP1MODE = 0b1000 ↔ (run s evs).CCP1MODE ≠ 0b1000)) ∧
    (s.CCP1MODE = 0b1000 →
      (run s evs).CCPR1 % 65536 =
        (s.CCPR1 + actingCount s evs / 2 * SERVO_PERIOD
          + (if actingCount s evs % 2 = 0 then 0 else w)) % 65536) := by
  obtain ⟨h1, h2⟩ := run_steady s evs w hs hn hno
  refine ⟨h1, h2, ?_, ?_⟩
  · intro ha
    rw [isr_CCPR1, isr_CCP1MODE, h1]
    by_cases hm : (run s evs).CCP1MODE = 0b1000 <;> simp [ha, hm]
  · intro hm
    have hb := periodBase_run s evs
    obtain ⟨hmode, hl⟩ := (run_mode_parity s evs).1 hm
    rw [hl] at hb
    unfold periodBase at hb
    rw [if_pos hm, hmode, h1] at hb
    by_cases hk : actingCount s evs % 2 = 0
    · simp only [hk, if_true] at hb ⊢
      rw [hb]; omega
    · simp only [hk, if_false] at hb ⊢
      have h9 : ¬ ((9 : Nat) = 8) := by decide
      simp only [h9, if_false] at hb
      unfold sub16 at hb
      unfold SERVO_PERIOD at hb ⊢
      omega

/-- Witness for C16: free running from start-up at width 1500 for three acting
steps: 10000, 11500, 30000, 31500. -/
theorem steady_state_witness :
    (run startState [Event.hw 10000 true, Event.isr, Event.hw 11500 true, Event.isr,
      Event.hw 30000 true, Event.isr]).servo_pulse_time = 1500 ∧
    (run startState [Event.hw 10000 true, Event.isr, Event.hw 11500 true, Event.isr,
      Event.hw 30000 true, Event.isr]).CCPR1 % 65536 = 31500 := by
  have h := steady_state startState [Event.hw 10000 true, Event.isr, Event.hw 11500 true,
    Event.isr, Event.hw 30000 true, Event.isr] 1500 (by decide) (by decide) (by decide)
  refine ⟨h.1, ?_⟩
  rw [h.2.2.2 (by decide)]
  decide

/-- C17, refuted as stated.  With the width 0 latched, the acting step in Set
On Match mode leaves `CCPR1` at 30000; with the width `SERVO_PERIOD` latched,
the acting step in Clear On Match mode leaves `CCPR1` at 50000.  In both the
next compare value equals the one that just fired. -/
theorem compare_advances_counterexample :
    acting (run startState stalledHighTrace) = true ∧
    (run startState stalledHighTrace).CCP1MODE = 0b1000 ∧
    (run startState stalledHighTrace).servo_pulse_time = 0 ∧
    (run startState stalledHighTrace).CCPR1 = 30000 ∧
    (isr (run startState stalledHighTrace)).CCPR1 = 30000 ∧
    acting (run startState stalledLowTrace) = true ∧
    (run startState stalledLowTrace).CCP1MODE = 0b1001 ∧
    (run startState stalledLowTrace).servo_pulse_time = 20000 ∧
    (run startState stalledLowTrace).CCPR1 = 50000 ∧
    (isr (run startState stalledLowTrace)).CCPR1 = 50000 := by
  decide

/-- C17, amended.  For 16-bit `CCPR1` and `servo_pulse_time`, an acting step
changes `CCPR1` exactly when the width is not 0 in Set On Match mode and not
`SERVO_PERIOD` in the other mode; in particular it changes `CCPR1` in either
phase for every width strictly between 0 and `SERVO_PERIOD`. -/
theorem compare_advances (s : State) (ha : acting s = true)
    (hc : s.CCPR1 < 65536) (hw : s.servo_pulse_time < 65536) :
    ((isr s).CCPR1 ≠ s.CCPR1 ↔
      (if s.CCP1MODE = 0b1000 then s.servo_pulse_time ≠ 0
       else s.servo_pulse_time ≠ SERVO_PERIOD)) ∧
    (0 < s.servo_pulse_time ∧ s.servo_pulse_time < SERVO_PERIOD →
      (isr s).CCPR1 ≠ s.CCPR1) := by
  have key : ((isr s).CCPR1 ≠ s.CCPR1 ↔
      (if s.CCP1MODE = 0b1000 then s.servo_pulse_time ≠ 0
       else s.servo_pulse_time ≠ SERVO_PERIOD)) := by
    rw [isr_CCPR1]
    unfold add16 sub16 SERVO_PERIOD
    by_cases hm : s.CCP1MODE = 0b1000
    · simp only [ha, hm, if_true]
      constructor
      · intro h h0; apply h; omega
      · intro h h0; apply h; omega
    · simp only [ha, hm, if_true, if_false]
      constructor
      · intro h h0; apply h; omega
      · intro h h0; apply h; omega
  refine ⟨key, ?_⟩
  rintro ⟨h0, h1⟩
  rw [key]
  unfold SERVO_PERIOD at h1 ⊢
  split <;> omega

/-- Witness for C17 (amended): the first acting step after start-up, width
1500, moves `CCPR1` away from 10000. -/
theorem compare_advances_witness :
    (isr (compare_match startState)).CCPR1 ≠ (compare_match startState).CCPR1 :=
  (compare_advances (compare_match startState) (by decide) (by decide) (by decide)).2
    (by decide)

/-- C18 (low-phase arithmetic).  For a 16-bit width `w` the low-phase increment
`SERVO_PERIOD - w`, computed in 16 bits, equals the integer `20000 - w` exactly
when `w ≤ 20000`; for `w > 20000`, which the setter stores unchanged, it is
`65536 + 20000 - w`, and the two increments of the period add up to 85536
ticks.  The acting step outside Set On Match mode adds this increment. -/
theorem low_phase_wraps (s : State) (w : Nat) (hw : w < 65536) :
    (((sub16 SERVO_PERIOD w : Nat) : Int) = (20000 : Int) - (w : Int) ↔ w ≤ 20000) ∧
    (w ≤ 20000 → sub16 SERVO_PERIOD w = 20000 - w ∧
      isr_increment 0b1000 w + isr_increment 0b1001 w = 20000) ∧
    (20000 < w → sub16 SERVO_PERIOD w = 65536 + 20000 - w ∧
      isr_increment 0b1000 w + isr_increment 0b1001 w = 85536) ∧
    (set_servo_pulse_time s w).new_pulse_time = w ∧
    (acting s = true → s.CCP1MODE ≠ 0b1000 →
      (isr s).CCPR1 = (s.CCPR1 + sub16 SERVO_PERIOD s.servo_pulse_time) % 65536) := by
  have h9 : ¬ ((9 : Nat) = 8) := by decide
  refine ⟨?_, ?_, ?_, ?_, ?_⟩
  · unfold sub16 SERVO_PERIOD; omega
  · intro h
    simp only [isr_increment, h9, if_true, if_false]
    unfold sub16 SERVO_PERIOD; omega
  · intro h
    simp only [isr_increment, h9, if_true, if_false]
    unfold sub16 SERVO_PERIOD; omega
  · rw [set_new_pulse_time]; exact Nat.mod_eq_of_lt hw
  · intro ha hm
    exact acting_isr_CCPR1_low s ha hm

/-- Witness for C18: the width 30000 gives a low-phase increment of 55536. -/
theorem low_phase_wraps_witness :
    sub16 SERVO_PERIOD 30000 = 65536 + 20000 - 30000 ∧
    isr_increment 0b1000 30000 + isr_increment 0b1001 30000 = 85536 :=
  (low_phase_wraps startState 30000 (by decide)).2.2.1 (by decide)

/-! ## The setter statement by statement -/

/-- Run without interruption, the statements of the setter amount to the
setter, in either byte order. -/
theorem setterRun_program (time : Nat) (lowFirst st0 : Bool) (s : State) :
    (setterRun time ⟨st0, s⟩ (setterProgram lowFirst)).regs = set_servo_pulse_time s time := by
  cases lowFirst <;>
    simp only [setterProgram, setterRun, setterStep, set_servo_pulse_time, if_true,
      Bool.false_eq_true, if_false] <;>
    congr 1 <;> omega

/-- Between the two byte stores the pending width can be a mixture: low byte of
2000 under the high byte of 1500. -/
theorem torn_between_stores :
    (beforeInterrupt 2000 true 3 ⟨false, compare_match startState⟩).new_pulse_time = 1488 ∧
    acting (beforeInterrupt 2000 true 3 ⟨false, compare_match startState⟩) = false := by
  decide

/-- The registers seen by a handler invoked after `k` statements of the setter:
everything but `CCP1IE` and `new_pulse_time` is as at the call; while the
statements between the disable and the restore are pending `CCP1IE` is clear;
otherwise the pending width is the old one or the new one. -/
theorem beforeInterrupt_cases (time : Nat) (lowFirst st0 : Bool) (k : Nat) (s : State) :
    (beforeInterrupt time lowFirst k ⟨st0, s⟩).servo_pulse_time = s.servo_pulse_time ∧
    ((2 ≤ k ∧ k ≤ 4 ∧ (beforeInterrupt time lowFirst k ⟨st0, s⟩).CCP1IE = false) ∨
     (k < 2 ∧ beforeInterrupt time lowFirst k ⟨st0, s⟩ = s) ∨
     (4 < k ∧ beforeInterrupt time lowFirst k ⟨st0, s⟩ = set_servo_pulse_time s time)) := by
  rcases k with _ | _ | _ | _ | _ | k
  · cases lowFirst <;> simp [beforeInterrupt, setterProgram, setterRun]
  · cases lowFirst <;> simp [beforeInterrupt, setterProgram, setterRun, setterStep]
  · cases lowFirst <;> simp [beforeInterrupt, setterProgram, setterRun, setterStep]
  · cases lowFirst <;> simp [beforeInterrupt, setterProgram, setterRun, setterStep]
  · cases lowFirst <;> simp [beforeInterrupt, setterProgram, setterRun, setterStep]
  · refine ⟨?_, Or.inr (Or.inr ⟨by omega, ?_⟩)⟩
    · cases lowFirst <;> simp [beforeInterrupt, setterProgram, setterRun, setterStep]
    · rw [← setterRun_program time lowFirst st0 s]
      cases lowFirst <;> simp [beforeInterrupt, setterProgram]

/-- After the interrupted call the pending width is the new one, `CCP1IE` is as
before the call, and the width in use is the one the handler left. -/
theorem interruptAt_final (time : Nat) (lowFirst st0 : Bool) (k : Nat) (s : State) :
    (interruptAt time lowFirst k ⟨st0, s⟩).regs.new_pulse_time = time % 65536 ∧
    (interruptAt time lowFirst k ⟨st0, s⟩).regs.CCP1IE = s.CCP1IE ∧
    (interruptAt time lowFirst k ⟨st0, s⟩).regs.servo_pulse_time =
      (isr (beforeInterrupt time lowFirst k ⟨st0, s⟩)).servo_pulse_time := by
  rcases k with _ | _ | _ | _ | _ | k <;> cases lowFirst <;>
    simp [interruptAt, beforeInterrupt, setterProgram, setterRun, setterStep,
      isr_new_pulse_time, isr_CCP1IE] <;> omega

/-- C13 (concurrent write safety).  Let the handler be invoked once, after any
number `k` of the statements of `set_servo_pulse_time` (save `CCP1IE`, clear
it, store the two bytes of `new_pulse_time` in either order, restore `CCP1IE`)
and run to completion before the rest.  The width it leaves in
`servo_pulse_time` is the old width in use (no latch), the complete old pending
width or the complete new one; whenever it is acting the pending width it sees
is the old one or the new one; between the clear and the restore it is not
acting and changes nothing; and the call ends with the new pending width and
`CCP1IE` as before the call. -/
theorem concurrent_write_safety (s : State) (st0 : Bool) (time : Nat) (lowFirst : Bool)
    (k : Nat) :
    ((isr (beforeInterrupt time lowFirst k ⟨st0, s⟩)).servo_pulse_time = s.servo_pulse_time ∨
     (isr (beforeInterrupt time lowFirst k ⟨st0, s⟩)).servo_pulse_time = s.new_pulse_time ∨
     (isr (beforeInterrupt time lowFirst k ⟨st0, s⟩)).servo_pulse_time = time % 65536) ∧
    (acting (beforeInterrupt time lowFirst k ⟨st0, s⟩) = true →
      (beforeInterrupt time lowFirst k ⟨st0, s⟩).new_pulse_time = s.new_pulse_time ∨
      (beforeInterrupt time lowFirst k ⟨st0, s⟩).new_pulse_time = time % 65536) ∧
    (2 ≤ k → k ≤ 4 →
      acting (beforeInterrupt time lowFirst k ⟨st0, s⟩) = false ∧
      isr (beforeInterrupt time lowFirst k ⟨st0, s⟩)
        = beforeInterrupt time lowFirst k ⟨st0, s⟩) ∧
    (interruptAt time lowFirst k ⟨st0, s⟩).regs.servo_pulse_time =
      (isr (beforeInterrupt time lowFirst k ⟨st0, s⟩)).servo_pulse_time ∧
    (interruptAt time lowFirst k ⟨st0, s⟩).regs.new_pulse_time = time % 65536 ∧
    (interruptAt time lowFirst k ⟨st0, s⟩).regs.CCP1IE = s.CCP1IE := by
  obtain ⟨hw, hcase⟩ := beforeInterrupt_cases time lowFirst st0 k s
  obtain ⟨f1, f2, f3⟩ := interruptAt_final time lowFirst st0 k s
  generalize beforeInterrupt time lowFirst k ⟨st0, s⟩ = b at *
  have hoff : b.CCP1IE = false → acting b = false := by
    intro h; unfold acting; simp [h]
  refine ⟨?_, ?_, ?_, f3, f1, f2⟩
  · rw [isr_servo_pulse_time, hw]
    split
    · rename_i hl
      rcases hcase with ⟨_, _, h⟩ | ⟨_, h⟩ | ⟨_, h⟩
      · rw [hoff h] at hl; simp at hl
      · rw [h]; exact Or.inr (Or.inl rfl)
      · rw [h]; exact Or.inr (Or.inr rfl)
    · exact Or.inl rfl
  · intro ha
    rcases hcase with ⟨_, _, h⟩ | ⟨_, h⟩ | ⟨_, h⟩
    · rw [hoff h] at ha; simp at ha
    · rw [h]; exact Or.inl rfl
    · rw [h]; exact Or.inr rfl
  · intro h2 h4
    rcases hcase with ⟨_, _, h⟩ | ⟨hk, _⟩ | ⟨hk, _⟩
    · exact ⟨hoff h, isr_not_acting b (hoff h)⟩
    · omega
    · omega

/-! ## The reference producer -/

theorem servo_time_range (r : Nat) :
    servo_time r = r % 2000 + 500 ∧ 500 ≤ servo_time r ∧ servo_time r ≤ 2499 := by
  unfold servo_time
  omega

theorem set_keeps_width (s : State) (w : Nat) :
    (set_servo_pulse_time s w).servo_pulse_time = s.servo_pulse_time := rfl

/-- Under the loop of `main` both widths stay between 500 and 2499. -/
theorem progRun_widths (s : State) (pevs : List ProgEvent)
    (hs : 500 ≤ s.servo_pulse_time ∧ s.servo_pulse_time ≤ 2499)
    (hn : 500 ≤ s.new_pulse_time ∧ s.new_pulse_time ≤ 2499) :
    (500 ≤ (progRun s pevs).servo_pulse_time ∧ (progRun s pevs).servo_pulse_time ≤ 2499) ∧
    (500 ≤ (progRun s pevs).new_pulse_time ∧ (progRun s pevs).new_pulse_time ≤ 2499) := by
  induction pevs generalizing s with
  | nil => exact ⟨hs, hn⟩
  | cons e es ih =>
    simp only [progRun]
    cases e with
    | isr =>
      apply ih
      · have e : progStep s ProgEvent.isr = isr s := rfl
        rw [e, isr_servo_pulse_time]
        split
        · exact hn
        · exact hs
      · have e : progStep s ProgEvent.isr = isr s := rfl
        rw [e, isr_new_pulse_time]; exact hn
    | hw t f =>
      have e1 : (progStep s (ProgEvent.hw t f)).servo_pulse_time = s.servo_pulse_time := rfl
      have e2 : (progStep s (ProgEvent.hw t f)).new_pulse_time = s.new_pulse_time := rfl
      apply ih
      · rw [e1]; exact hs
      · rw [e2]; exact hn
    | loop r =>
      have e : progStep s (ProgEvent.loop r) = set_servo_pulse_time s (servo_time r) := rfl
      have := servo_time_range r
      apply ih
      · rw [e, set_keeps_width]; exact hs
      · rw [e, set_new_pulse_time]; omega

/-- C19 (reference producer).  For every result `r` of `rand()` the width that
`main` passes to the setter is `r % 2000 + 500`, between 500 and 2499.  In
every state the program reaches from its initial state (widths 1500) through
loop iterations, handler invocations and hardware events, `new_pulse_time` and
`servo_pulse_time` lie between 500 and 2499, so `servo_pulse_time` is strictly
between 0 and `SERVO_PERIOD` and the 16-bit low-phase difference is the plain
difference `20000 - servo_pulse_time`. -/
theorem producer_keeps_range (p : State) (r : Nat) (pevs : List ProgEvent) :
    main_loop_body p r = set_servo_pulse_time p (r % 2000 + 500) ∧
    (500 ≤ r % 2000 + 500 ∧ r % 2000 + 500 ≤ 2499) ∧
    (main_setup (c_init p)).servo_pulse_time = 1500 ∧
    (main_setup (c_init p)).new_pulse_time = 1500 ∧
    (500 ≤ (progRun (main_setup (c_init p)) pevs).new_pulse_time ∧
      (progRun (main_setup (c_init p)) pevs).new_pulse_time ≤ 2499) ∧
    (500 ≤ (progRun (main_setup (c_init p)) pevs).servo_pulse_time ∧
      (progRun (main_setup (c_init p)) pevs).servo_pulse_time ≤ 2499) ∧
    (0 < (progRun (main_setup (c_init p)) pevs).servo_pulse_time ∧
      (progRun (main_setup (c_init p)) pevs).servo_pulse_time < SERVO_PERIOD) ∧
    sub16 SERVO_PERIOD (progRun (main_setup (c_init p)) pevs).servo_pulse_time
      = 20000 - (progRun (main_setup (c_init p)) pevs).servo_pulse_time := by
  have h0 : (main_setup (c_init p)).servo_pulse_time = 1500 := rfl
  have h1 : (main_setup (c_init p)).new_pulse_time = 1500 := rfl
  obtain ⟨hs, hn⟩ := progRun_widths (main_setup (c_init p)) pevs
    (by rw [h0]; omega) (by rw [h1]; omega)
  refine ⟨?_, by omega, h0, h1, hn, hs, ?_, ?_⟩
  · unfold main_loop_body
    rw [(servo_time_range r).1]
  · unfold SERVO_PERIOD; omega
  · unfold sub16 SERVO_PERIOD; omega

end CCPServo
